import Mathlib

/-!
Shallow embedding of the Sinomilia game engine
(`sinomilia/SinomiliaLogicNumba.py`).

The engine stores the game in a flat buffer of 37 signed 8-bit fields, each
field physically a 2-slot vector whose slots are always written identically,
plus an auxiliary 2-element `selected_cards` list kept outside the buffer.
We model each logical field as a single `Int` (both slots always carry the
same value, and no claim under verification depends on 8-bit wrap-around,
only on control flow and on which field is written), the two 10-element
card-flag rows as `List Int`, and `selected_cards` as a pair of `Int`.
Attribute writes in the source (`self.x = v` / `self.x[:] = v`) are modeled
uniformly as writes of the logical field `x`.
-/

namespace Sinomilia

/-- Logical game state: the 37-field buffer (rows grouped as in the source
board description) together with the auxiliary `selected_cards` pair. -/
structure Board where
  p1_cards : List Int
  p2_cards : List Int
  start_player : Int
  pass_active : Int
  p1_changed : Int
  p2_changed : Int
  p1_chips : Int
  p2_chips : Int
  p1_chips_bet : Int
  p2_chips_bet : Int
  chips_bet_total : Int
  moon_chips_bet_total : Int
  moon_chip_active : Int
  p1_cards_total : Int
  p2_cards_total : Int
  p1_nines_total : Int
  p2_nines_total : Int
  played_card_number : Int
  round : Int
  selected_cards : Int × Int
deriving DecidableEq, Repr

/-- `observation_size`: the buffer is 37 fields by 2 history slots. -/
def observation_size : Nat × Nat := (37, 2)

/-- `action_size`: the advertised size of the action space. -/
def action_size : Nat := 13

/-- `init_game` (together with `__init__`): zero buffer, then chips 15 and
card totals 10 for both players; `selected_cards` starts as `[-1, -1]`. -/
def init_game : Board :=
  { p1_cards := List.replicate 10 0
    p2_cards := List.replicate 10 0
    start_player := 0
    pass_active := 0
    p1_changed := 0
    p2_changed := 0
    p1_chips := 15
    p2_chips := 15
    p1_chips_bet := 0
    p2_chips_bet := 0
    chips_bet_total := 0
    moon_chips_bet_total := 0
    moon_chip_active := 0
    p1_cards_total := 10
    p2_cards_total := 10
    p1_nines_total := 0
    p2_nines_total := 0
    played_card_number := 0
    round := 0
    selected_cards := (-1, -1) }

/-- Card committed by `player` this round (`selected_cards[player]`). -/
def selectedOf (b : Board) (player : Nat) : Int :=
  if player = 0 then b.selected_cards.1 else b.selected_cards.2

/-- Card-used row of `player` (`state[player*10 : player*10+10]`). -/
def cardsOf (b : Board) (player : Nat) : List Int :=
  if player = 0 then b.p1_cards else b.p2_cards

/-- `_valid_select_card`: all-false once a card is committed, else card `i`
is selectable iff its used flag is 0. -/
def valid_select_card (b : Board) (player : Nat) : List Bool :=
  if selectedOf b player ≠ -1 then List.replicate 10 false
  else (List.range 10).map (fun i => decide ((cardsOf b player).getD i 0 = 0))

/-- `_valid_pass`: legal once the player has committed a card. -/
def valid_pass (b : Board) (player : Nat) : Bool :=
  decide (selectedOf b player ≠ -1)

/-- `_valid_play_chip`: pass precondition, bet total below 9, own bank positive. -/
def valid_play_chip (b : Board) (player : Nat) : Bool :=
  valid_pass b player && decide (b.chips_bet_total < 9)
    && (if player = 0 then decide (0 < b.p1_chips) else decide (0 < b.p2_chips))

/-- `_valid_change_card`: play-chip precondition, exchange not yet used. -/
def valid_change_card (b : Board) (player : Nat) : Bool :=
  valid_play_chip b player
    && (if player = 0 then decide (b.p1_changed = 0) else decide (b.p2_changed = 0))

/-- `valid_moves`: a 14-slot mask — slots 0–9 select-card, 10 pass,
11 chip, 12 moon chip, 13 change card. -/
def valid_moves (b : Board) (player : Nat) : List Bool :=
  valid_select_card b player
    ++ [valid_pass b player, valid_play_chip b player,
        valid_play_chip b player, valid_change_card b player]

/-- `_select_card`: record the card and mirror it in `played_card_number`. -/
def select_card (b : Board) (player : Nat) (card : Int) : Board :=
  { b with
    played_card_number := card
    selected_cards :=
      if player = 0 then (card, b.selected_cards.2)
      else (b.selected_cards.1, card) }

/-- `_reset_round_state`: zero all per-round counters and flags, clear both
selected cards, bump `round`, and record the winner as next `start_player`. -/
def reset_round_state (b : Board) (winning_player : Int) : Board :=
  { b with
    p1_chips_bet := 0
    p2_chips_bet := 0
    chips_bet_total := 0
    moon_chips_bet_total := 0
    pass_active := 0
    moon_chip_active := 0
    p1_changed := 0
    p2_changed := 0
    selected_cards := (-1, -1)
    round := b.round + 1
    start_player := winning_player }

/-- `_handle_round_end`: compare each player's distance between
`chips_bet_total` and their selected card; smaller distance wins the gain
`chips_bet_total + moon_chips_bet_total + 2`; on a tie the passer wins iff a
moon chip is active. Each branch also records the `winning_player` value
passed to the reset (in the no-moon tie branches the source records the
passer, not the player whose bank it credits). -/
def handle_round_end (b : Board) (player_who_passed_last : Nat) : Board :=
  let p1_card := b.selected_cards.1
  let p2_card := b.selected_cards.2
  let p1_diff := |b.chips_bet_total - p1_card|
  let p2_diff := |b.chips_bet_total - p2_card|
  let winner_chip_gain := b.chips_bet_total + b.moon_chips_bet_total + 2
  if p1_diff < p2_diff then
    reset_round_state { b with p1_chips := b.p1_chips + winner_chip_gain } 0
  else if p2_diff < p1_diff then
    reset_round_state { b with p2_chips := b.p2_chips + winner_chip_gain } 1
  else if b.moon_chip_active ≠ 0 then
    if player_who_passed_last = 0 then
      reset_round_state { b with p1_chips := b.p1_chips + winner_chip_gain } 0
    else
      reset_round_state { b with p2_chips := b.p2_chips + winner_chip_gain } 1
  else
    if player_who_passed_last = 0 then
      reset_round_state { b with p2_chips := b.p2_chips + winner_chip_gain } 0
    else
      reset_round_state { b with p1_chips := b.p1_chips + winner_chip_gain } 1

/-- `_pass`: if the opponent already passed or a moon chip is active the
round ends, otherwise just raise `pass_active`. -/
def pass_move (b : Board) (player : Nat) : Board :=
  if b.pass_active ≠ 0 ∨ b.moon_chip_active ≠ 0 then handle_round_end b player
  else { b with pass_active := 1 }

/-- `_play_chip`: debit the acting player's bank, credit their bet and the
shared total, clear both round-ending flags. -/
def play_chip (b : Board) (player : Nat) : Board :=
  let b :=
    if player = 0 then
      { b with p1_chips := b.p1_chips - 1, p1_chips_bet := b.p1_chips_bet + 1 }
    else
      { b with p2_chips := b.p2_chips - 1, p2_chips_bet := b.p2_chips_bet + 1 }
  { b with
    chips_bet_total := b.chips_bet_total + 1
    pass_active := 0
    moon_chip_active := 0 }

/-- `_play_moon_chip`: a chip play that additionally counts a moon bet and
raises `moon_chip_active`. -/
def play_moon_chip (b : Board) (player : Nat) : Board :=
  let b := play_chip b player
  { b with
    moon_chips_bet_total := b.moon_chips_bet_total + 1
    moon_chip_active := 1 }

/-- `_change_card`: if the player's once-per-round exchange is unused, mark
it used and clear that player's selected card; always reset
`played_card_number` to −1. -/
def change_card (b : Board) (player : Nat) : Board :=
  let b :=
    if player = 0 ∧ b.p1_changed = 0 then
      { b with p1_changed := 1, selected_cards := (-1, b.selected_cards.2) }
    else if player = 1 ∧ b.p2_changed = 0 then
      { b with p2_changed := 1, selected_cards := (b.selected_cards.1, -1) }
    else b
  { b with played_card_number := -1 }

/-- `make_move`: increment `round` for every non-change-card action, dispatch
on the action index (indices above 13 fall through with no further effect),
and return the next player — the same player only after change-card. -/
def make_move (b : Board) (move : Int) (player : Nat) (_random_seed : Int) :
    Board × Nat :=
  let b := if move ≠ 13 then { b with round := b.round + 1 } else b
  let b :=
    if move ≤ 9 then select_card b player move
    else if move = 10 then pass_move b player
    else if move = 11 then play_chip b player
    else if move = 12 then play_moon_chip b player
    else if move = 13 then change_card b player
    else b
  if move = 13 then (b, player) else (b, 1 - player)

/-- `copy_state` with the buffer to adopt passed as the buffer part of a
`Board`: the engine takes over (a copy of) the argument's buffer fields,
while `selected_cards` is copied from the engine itself — the raw buffer
carries no selected cards. The `copy_or_not` flag only selects between
aliasing and copying the buffer, which are value-identical here. -/
def copy_state (b : Board) (state : Board) (_copy_or_not : Bool) : Board :=
  { state with selected_cards := b.selected_cards }

/-- `check_end_game`: `none` while both banks are positive and both card
totals exceed 2; otherwise the payoff pair (float constants modeled as
rationals). -/
def check_end_game (b : Board) : Option (Rat × Rat) :=
  if 0 < b.p1_chips ∧ 0 < b.p2_chips ∧ 2 < b.p1_cards_total ∧ 2 < b.p2_cards_total
  then none
  else if b.p2_chips < b.p1_chips then some (1, -1)
  else if b.p1_chips < b.p2_chips then some (-1, 1)
  else some (-1/10, -1/10)

/-- Low-bit flip (`^ 1` on a two's-complement integer): even values gain 1,
odd values lose 1. -/
def flip_bit (x : Int) : Int :=
  if x % 2 = 0 then x + 1 else x - 1

/-- `swap_players`: swap the selected pair, the card rows, changed flags,
banks, bets, card totals and nines totals; flip `start_player`'s low bit;
rewrite `played_card_number` from the already-swapped first selected card.
`pass_active`, `moon_chip_active`, the bet totals and `round` are untouched. -/
def swap_players (b : Board) : Board :=
  let b := { b with selected_cards := (b.selected_cards.2, b.selected_cards.1) }
  let b := { b with p1_cards := b.p2_cards, p2_cards := b.p1_cards }
  let b := { b with p1_changed := b.p2_changed, p2_changed := b.p1_changed }
  let b := { b with p1_chips := b.p2_chips, p2_chips := b.p1_chips }
  let b := { b with p1_chips_bet := b.p2_chips_bet, p2_chips_bet := b.p1_chips_bet }
  let b := { b with start_player := flip_bit b.start_player }
  let b := { b with played_card_number := b.selected_cards.1 }
  let b := { b with p1_cards_total := b.p2_cards_total, p2_cards_total := b.p1_cards_total }
  let b := { b with p1_nines_total := b.p2_nines_total, p2_nines_total := b.p1_nines_total }
  b

/-- Drive the engine through a list of `(move, player)` requests from a
given state, ignoring the returned next-player values. -/
def apply_moves (b : Board) (ms : List (Int × Nat)) : Board :=
  ms.foldl (fun b m => (make_move b m.1 m.2 0).1) b

/-- Fields that no transition ever writes: the two card-used rows and the
two card totals keep their initial values. -/
def CardsInv (b : Board) : Prop :=
  b.p1_cards = List.replicate 10 0 ∧ b.p2_cards = List.replicate 10 0 ∧
    b.p1_cards_total = 10 ∧ b.p2_cards_total = 10

/-- Flipping the low bit twice is the identity. -/
theorem flip_bit_flip_bit (x : Int) : flip_bit (flip_bit x) = x := by
  unfold flip_bit
  split <;> split <;> omega

theorem handle_round_end_frame (b : Board) (p : Nat) :
    (handle_round_end b p).p1_cards = b.p1_cards ∧
    (handle_round_end b p).p2_cards = b.p2_cards ∧
    (handle_round_end b p).p1_cards_total = b.p1_cards_total ∧
    (handle_round_end b p).p2_cards_total = b.p2_cards_total := by
  simp only [handle_round_end]
  split_ifs <;> exact ⟨rfl, rfl, rfl, rfl⟩

theorem pass_move_frame (b : Board) (p : Nat) :
    (pass_move b p).p1_cards = b.p1_cards ∧
    (pass_move b p).p2_cards = b.p2_cards ∧
    (pass_move b p).p1_cards_total = b.p1_cards_total ∧
    (pass_move b p).p2_cards_total = b.p2_cards_total := by
  simp only [pass_move]
  split_ifs with h
  · exact handle_round_end_frame b p
  · exact ⟨rfl, rfl, rfl, rfl⟩

theorem play_chip_frame (b : Board) (p : Nat) :
    (play_chip b p).p1_cards = b.p1_cards ∧
    (play_chip b p).p2_cards = b.p2_cards ∧
    (play_chip b p).p1_cards_total = b.p1_cards_total ∧
    (play_chip b p).p2_cards_total = b.p2_cards_total := by
  simp only [play_chip]
  split_ifs <;> exact ⟨rfl, rfl, rfl, rfl⟩

theorem change_card_frame (b : Board) (p : Nat) :
    (change_card b p).p1_cards = b.p1_cards ∧
    (change_card b p).p2_cards = b.p2_cards ∧
    (change_card b p).p1_cards_total = b.p1_cards_total ∧
    (change_card b p).p2_cards_total = b.p2_cards_total := by
  simp only [change_card]
  split_ifs <;> exact ⟨rfl, rfl, rfl, rfl⟩

theorem make_move_preserves_cards (b : Board) (m : Int) (p : Nat) (s : Int) :
    (make_move b m p s).1.p1_cards = b.p1_cards ∧
    (make_move b m p s).1.p2_cards = b.p2_cards ∧
    (make_move b m p s).1.p1_cards_total = b.p1_cards_total ∧
    (make_move b m p s).1.p2_cards_total = b.p2_cards_total := by
  simp only [make_move]
  split_ifs <;>
    first
      | exact ⟨rfl, rfl, rfl, rfl⟩
      | exact pass_move_frame _ _
      | exact play_chip_frame _ _
      | exact change_card_frame _ _

theorem apply_moves_cards_inv (ms : List (Int × Nat)) (b : Board)
    (h : CardsInv b) : CardsInv (apply_moves b ms) := by
  induction ms generalizing b with
  | nil => exact h
  | cons m ms ih =>
      apply ih
      obtain ⟨h1, h2, h3, h4⟩ := h
      obtain ⟨g1, g2, g3, g4⟩ := make_move_preserves_cards b m.1 m.2 0
      exact ⟨g1.trans h1, g2.trans h2, g3.trans h3, g4.trans h4⟩

theorem valid_select_card_length (b : Board) (p : Nat) :
    (valid_select_card b p).length = 10 := by
  unfold valid_select_card
  split_ifs <;> simp

theorem valid_moves_length (b : Board) (p : Nat) :
    (valid_moves b p).length = 14 := by
  unfold valid_moves
  simp [valid_select_card_length]

theorem valid_moves_getD_13 (b : Board) (p : Nat) :
    (valid_moves b p).getD 13 false = valid_change_card b p := by
  unfold valid_moves
  rw [List.getD_eq_getElem?_getD, List.getElem?_append_right
    (by rw [valid_select_card_length]; omega)]
  simp [valid_select_card_length]

/-- C1: when a terminating pass resolves a round in which the two bid
distances `|chips_bet_total - selected_cards[i]|` are equal, the winner's
gain `chips_bet_total + moon_chips_bet_total + 2` is credited to the bank
of the player who issued the terminating pass if `moon_chip_active` is set,
and to the other player's bank (the passer loses the tie) if it is clear;
the loser's bank is untouched. -/
theorem c1_tie_break_chip_credit (b : Board) (p : Nat) (s : Int)
    (hp : p = 0 ∨ p = 1)
    (hterm : b.pass_active ≠ 0 ∨ b.moon_chip_active ≠ 0)
    (htie : |b.chips_bet_total - b.selected_cards.1| =
      |b.chips_bet_total - b.selected_cards.2|) :
    (b.moon_chip_active ≠ 0 →
      (p = 0 →
        (make_move b 10 p s).1.p1_chips =
          b.p1_chips + (b.chips_bet_total + b.moon_chips_bet_total + 2) ∧
        (make_move b 10 p s).1.p2_chips = b.p2_chips) ∧
      (p = 1 →
        (make_move b 10 p s).1.p2_chips =
          b.p2_chips + (b.chips_bet_total + b.moon_chips_bet_total + 2) ∧
        (make_move b 10 p s).1.p1_chips = b.p1_chips)) ∧
    (b.moon_chip_active = 0 →
      (p = 0 →
        (make_move b 10 p s).1.p2_chips =
          b.p2_chips + (b.chips_bet_total + b.moon_chips_bet_total + 2) ∧
        (make_move b 10 p s).1.p1_chips = b.p1_chips) ∧
      (p = 1 →
        (make_move b 10 p s).1.p1_chips =
          b.p1_chips + (b.chips_bet_total + b.moon_chips_bet_total + 2) ∧
        (make_move b 10 p s).1.p2_chips = b.p2_chips)) := by
  have hkey : (make_move b 10 p s).1 =
      handle_round_end { b with round := b.round + 1 } p := by
    simp [make_move, pass_move, hterm]
  rw [hkey]
  simp only [handle_round_end]
  rw [show ({ b with round := b.round + 1 } : Board).chips_bet_total =
    b.chips_bet_total from rfl]
  rw [show ({ b with round := b.round + 1 } : Board).selected_cards =
    b.selected_cards from rfl]
  rw [htie]
  simp only [lt_irrefl, if_false]
  constructor
  · intro hmoon
    rw [if_pos hmoon]
    constructor
    · rintro rfl
      rw [if_pos rfl]
      exact ⟨rfl, rfl⟩
    · rintro rfl
      rw [if_neg (by omega)]
      exact ⟨rfl, rfl⟩
  · intro hmoon
    rw [if_neg (by simp [hmoon])]
    constructor
    · rintro rfl
      rw [if_pos rfl]
      exact ⟨rfl, rfl⟩
    · rintro rfl
      rw [if_neg (by omega)]
      exact ⟨rfl, rfl⟩

/-- C1 witness: both players select card 5 and player 0 passes; player 1's
terminating pass then resolves an equal-distance round with no moon chip,
and the tie goes against the passer: player 0's bank is credited. -/
theorem c1_tie_break_chip_credit_witness :
    (((apply_moves init_game [(5, 0), (5, 1), (10, 0)])).pass_active ≠ 0 ∨
      ((apply_moves init_game [(5, 0), (5, 1), (10, 0)])).moon_chip_active ≠ 0) ∧
    |((apply_moves init_game [(5, 0), (5, 1), (10, 0)])).chips_bet_total -
        ((apply_moves init_game [(5, 0), (5, 1), (10, 0)])).selected_cards.1| =
      |((apply_moves init_game [(5, 0), (5, 1), (10, 0)])).chips_bet_total -
        ((apply_moves init_game [(5, 0), (5, 1), (10, 0)])).selected_cards.2| ∧
    ((((apply_moves init_game [(5, 0), (5, 1), (10, 0)])).moon_chip_active ≠ 0 →
      ((1 : Nat) = 0 →
        (make_move (apply_moves init_game [(5, 0), (5, 1), (10, 0)]) 10 1 0).1.p1_chips =
          ((apply_moves init_game [(5, 0), (5, 1), (10, 0)])).p1_chips +
            (((apply_moves init_game [(5, 0), (5, 1), (10, 0)])).chips_bet_total +
              ((apply_moves init_game [(5, 0), (5, 1), (10, 0)])).moon_chips_bet_total + 2) ∧
        (make_move (apply_moves init_game [(5, 0), (5, 1), (10, 0)]) 10 1 0).1.p2_chips =
          ((apply_moves init_game [(5, 0), (5, 1), (10, 0)])).p2_chips) ∧
      ((1 : Nat) = 1 →
        (make_move (apply_moves init_game [(5, 0), (5, 1), (10, 0)]) 10 1 0).1.p2_chips =
          ((apply_moves init_game [(5, 0), (5, 1), (10, 0)])).p2_chips +
            (((apply_moves init_game [(5, 0), (5, 1), (10, 0)])).chips_bet_total +
              ((apply_moves init_game [(5, 0), (5, 1), (10, 0)])).moon_chips_bet_total + 2) ∧
        (make_move (apply_moves init_game [(5, 0), (5, 1), (10, 0)]) 10 1 0).1.p1_chips =
          ((apply_moves init_game [(5, 0), (5, 1), (10, 0)])).p1_chips)) ∧
    (((apply_moves init_game [(5, 0), (5, 1), (10, 0)])).moon_chip_active = 0 →
      ((1 : Nat) = 0 →
        (make_move (apply_moves init_game [(5, 0), (5, 1), (10, 0)]) 10 1 0).1.p2_chips =
          ((apply_moves init_game [(5, 0), (5, 1), (10, 0)])).p2_chips +
            (((apply_moves init_game [(5, 0), (5, 1), (10, 0)])).chips_bet_total +
              ((apply_moves init_game [(5, 0), (5, 1), (10, 0)])).moon_chips_bet_total + 2) ∧
        (make_move (apply_moves init_game [(5, 0), (5, 1), (10, 0)]) 10 1 0).1.p1_chips =
          ((apply_moves init_game [(5, 0), (5, 1), (10, 0)])).p1_chips) ∧
      ((1 : Nat) = 1 →
        (make_move (apply_moves init_game [(5, 0), (5, 1), (10, 0)]) 10 1 0).1.p1_chips =
          ((apply_moves init_game [(5, 0), (5, 1), (10, 0)])).p1_chips +
            (((apply_moves init_game [(5, 0), (5, 1), (10, 0)])).chips_bet_total +
              ((apply_moves init_game [(5, 0), (5, 1), (10, 0)])).moon_chips_bet_total + 2) ∧
        (make_move (apply_moves init_game [(5, 0), (5, 1), (10, 0)]) 10 1 0).1.p2_chips =
          ((apply_moves init_game [(5, 0), (5, 1), (10, 0)])).p2_chips))) :=
  ⟨Or.inl (by decide), by decide,
    c1_tie_break_chip_credit (apply_moves init_game [(5, 0), (5, 1), (10, 0)]) 1 0
      (Or.inr rfl) (Or.inl (by decide)) (by decide)⟩

/-- C2: code-bug evidence at a concrete input. Both players select card 5
(equal distances, no moon chip) and player 0 then player 1 pass: the
winner's gain of 2 chips is credited to player 0's bank (p1_chips 15 → 17,
p2_chips unchanged), yet `start_player` is set to 1 — not the player whose
bank was credited. The source's own comment on this branch says player 2
(index 1) "wins the tie" while its `winning_player` variable records the
passer instead of the credited player. -/
theorem c2_tie_start_player_not_credited_winner :
    (apply_moves init_game [(5, 0), (5, 1), (10, 0), (10, 1)]).p1_chips = 17 ∧
    (apply_moves init_game [(5, 0), (5, 1), (10, 0), (10, 1)]).p2_chips = 15 ∧
    (apply_moves init_game [(5, 0), (5, 1), (10, 0), (10, 1)]).start_player = 1 := by
  decide

/-- C3: cloning never loses or resets the committed card selection —
`copy_state` carries the engine's `selected_cards` over to the clone
unchanged (the adopted raw buffer holds no selected cards), so cloning an
engine from its own game state preserves the pair exactly. -/
theorem c3_copy_state_preserves_selected_cards (b state : Board) (c : Bool) :
    (copy_state b state c).selected_cards = b.selected_cards ∧
    copy_state b b true = b :=
  ⟨rfl, rfl⟩

/-- C4 counterexample: at the initial state, change-card (action 13) is
reported illegal by `valid_moves` (no card selected), yet `make_move`
silently applies a state change — it marks player 0's once-per-round
exchange as used and returns normally — instead of failing loudly. -/
theorem c4_counterexample :
    (valid_moves init_game 0).getD 13 false = false ∧
    init_game.p1_changed = 0 ∧
    (make_move init_game 13 0 0).1.p1_changed = 1 ∧
    (make_move init_game 13 0 0).2 = 0 := by
  decide

/-- C4 amended: `make_move` performs no input validation and has no failure
path — a change-card action taken with no selected card, which
`valid_moves` reports illegal, is still silently applied: it resets
`played_card_number` to −1, consumes the player's exchange flag when it was
unused, and returns the acting player as next player. -/
theorem c4_make_move_no_validation (b : Board) (s : Int)
    (h : b.selected_cards.1 = -1) :
    (valid_moves b 0).getD 13 false = false ∧
    (make_move b 13 0 s).1.played_card_number = -1 ∧
    (b.p1_changed = 0 → (make_move b 13 0 s).1.p1_changed = 1) ∧
    (make_move b 13 0 s).2 = 0 := by
  refine ⟨?_, ?_, ?_, ?_⟩
  · rw [valid_moves_getD_13]
    simp [valid_change_card, valid_play_chip, valid_pass, selectedOf, h]
  · simp [make_move, change_card]
  · intro h0
    simp [make_move, change_card, h0]
  · simp [make_move]

/-- C4 witness: the initial state has no selected card for player 0, and
the illegal change-card action is silently applied there. -/
theorem c4_make_move_no_validation_witness :
    init_game.selected_cards.1 = -1 ∧
    ((valid_moves init_game 0).getD 13 false = false ∧
      (make_move init_game 13 0 0).1.played_card_number = -1 ∧
      (init_game.p1_changed = 0 → (make_move init_game 13 0 0).1.p1_changed = 1) ∧
      (make_move init_game 13 0 0).2 = 0) :=
  ⟨by decide, c4_make_move_no_validation init_game 0 (by decide)⟩

/-- C5: `swap_players` exchanges the two players' card-used rows, changed
flags, chip banks, chip bets, card totals, nines totals and the
`selected_cards` pair, flips the low bit of `start_player`, and leaves the
`played_card_number` field equal to the (now-swapped) first selected card. -/
theorem c5_swap_players_spec (b : Board) :
    (swap_players b).p1_cards = b.p2_cards ∧
    (swap_players b).p2_cards = b.p1_cards ∧
    (swap_players b).p1_changed = b.p2_changed ∧
    (swap_players b).p2_changed = b.p1_changed ∧
    (swap_players b).p1_chips = b.p2_chips ∧
    (swap_players b).p2_chips = b.p1_chips ∧
    (swap_players b).p1_chips_bet = b.p2_chips_bet ∧
    (swap_players b).p2_chips_bet = b.p1_chips_bet ∧
    (swap_players b).p1_cards_total = b.p2_cards_total ∧
    (swap_players b).p2_cards_total = b.p1_cards_total ∧
    (swap_players b).p1_nines_total = b.p2_nines_total ∧
    (swap_players b).p2_nines_total = b.p1_nines_total ∧
    (swap_players b).selected_cards = (b.selected_cards.2, b.selected_cards.1) ∧
    (swap_players b).start_player = flip_bit b.start_player ∧
    (swap_players b).played_card_number = (swap_players b).selected_cards.1 :=
  ⟨rfl, rfl, rfl, rfl, rfl, rfl, rfl, rfl, rfl, rfl, rfl, rfl, rfl, rfl, rfl⟩

/-- C6: along every `make_move` sequence from the initial game, the
card-used rows stay all-zero and both card totals stay 10 — no operation
marks a card used or decrements a total — so whenever `check_end_game`
reports the game over, it is never the card-total clause that caused it:
with both banks positive the game is still in progress. -/
theorem c6_card_flags_never_used (ms : List (Int × Nat)) :
    (apply_moves init_game ms).p1_cards = List.replicate 10 0 ∧
    (apply_moves init_game ms).p2_cards = List.replicate 10 0 ∧
    (apply_moves init_game ms).p1_cards_total = 10 ∧
    (apply_moves init_game ms).p2_cards_total = 10 ∧
    (0 < (apply_moves init_game ms).p1_chips →
      0 < (apply_moves init_game ms).p2_chips →
      check_end_game (apply_moves init_game ms) = none) := by
  obtain ⟨h1, h2, h3, h4⟩ := apply_moves_cards_inv ms init_game ⟨rfl, rfl, rfl, rfl⟩
  refine ⟨h1, h2, h3, h4, ?_⟩
  intro hc1 hc2
  unfold check_end_game
  rw [if_pos ⟨hc1, hc2, by rw [h3]; norm_num, by rw [h4]; norm_num⟩]

/-- C7 counterexample: the trailing mask slot is not unused — after
player 0 selects card 5 from the initial state, slot 13 of the mask
returned by `valid_moves` is set (change-card is legal there). -/
theorem c7_counterexample :
    action_size = 13 ∧
    (valid_moves (apply_moves init_game [(5, 0)]) 0).getD 13 false = true := by
  decide

/-- C7 amended: `action_size` is 13 while `valid_moves` returns a 14-slot
mask, but the trailing slot is not an unused artifact: for every state and
either player, slot 13 carries the change-card validity and is set
whenever change-card is legal. -/
theorem c7_mask_slot13_is_change_card (b : Board) :
    action_size = 13 ∧
    (valid_moves b 0).length = 14 ∧ (valid_moves b 1).length = 14 ∧
    (valid_moves b 0).getD 13 false = valid_change_card b 0 ∧
    (valid_moves b 1).getD 13 false = valid_change_card b 1 :=
  ⟨rfl, valid_moves_length b 0, valid_moves_length b 1,
    valid_moves_getD_13 b 0, valid_moves_getD_13 b 1⟩

/-- C8: `check_end_game` is a total function reporting "in progress"
(`none`) exactly when both chip banks are strictly positive and both card
totals exceed 2; otherwise it returns (+1, −1) when player 1's bank is
strictly larger, (−1, +1) when strictly smaller, and (−0.1, −0.1) on an
exact tie. -/
theorem c8_check_end_game_total (b : Board) :
    (check_end_game b = none ↔
      (0 < b.p1_chips ∧ 0 < b.p2_chips ∧
        2 < b.p1_cards_total ∧ 2 < b.p2_cards_total)) ∧
    (check_end_game b = none ∨
      check_end_game b =
        some (if b.p2_chips < b.p1_chips then ((1 : Rat), -1)
          else if b.p1_chips < b.p2_chips then (-1, 1)
          else (-1/10, -1/10))) := by
  unfold check_end_game
  split_ifs <;> simp_all

/-- C9: from a fresh game, selecting card 5 (player 0), card 7 (player 1),
then two passes resolves the round with `chips_bet_total = 0`; player 0
wins (distance 5 against 7), gains 0 + 0 + 2 = 2 chips reaching 17, every
per-round counter resets to zero, both selected cards return to −1, and
`start_player` is 0. -/
theorem c9_concrete_scenario :
    (apply_moves init_game [(5, 0), (7, 1), (10, 0)]).chips_bet_total = 0 ∧
    (apply_moves init_game [(5, 0), (7, 1), (10, 0)]).pass_active = 1 ∧
    (apply_moves init_game [(5, 0), (7, 1), (10, 0), (10, 1)]).p1_chips = 17 ∧
    (apply_moves init_game [(5, 0), (7, 1), (10, 0), (10, 1)]).p2_chips = 15 ∧
    (apply_moves init_game [(5, 0), (7, 1), (10, 0), (10, 1)]).p1_chips_bet = 0 ∧
    (apply_moves init_game [(5, 0), (7, 1), (10, 0), (10, 1)]).p2_chips_bet = 0 ∧
    (apply_moves init_game [(5, 0), (7, 1), (10, 0), (10, 1)]).chips_bet_total = 0 ∧
    (apply_moves init_game [(5, 0), (7, 1), (10, 0), (10, 1)]).moon_chips_bet_total = 0 ∧
    (apply_moves init_game [(5, 0), (7, 1), (10, 0), (10, 1)]).pass_active = 0 ∧
    (apply_moves init_game [(5, 0), (7, 1), (10, 0), (10, 1)]).moon_chip_active = 0 ∧
    (apply_moves init_game [(5, 0), (7, 1), (10, 0), (10, 1)]).p1_changed = 0 ∧
    (apply_moves init_game [(5, 0), (7, 1), (10, 0), (10, 1)]).p2_changed = 0 ∧
    (apply_moves init_game [(5, 0), (7, 1), (10, 0), (10, 1)]).selected_cards = (-1, -1) ∧
    (apply_moves init_game [(5, 0), (7, 1), (10, 0), (10, 1)]).start_player = 0 := by
  decide

/-- C10 counterexample: double perspective swap is not the identity —
after player 0 selects card 5 and player 1 selects card 7,
`played_card_number` is 7, and two applications of `swap_players` rewrite
it to 5, so the state is not restored bit-for-bit. -/
theorem c10_counterexample :
    swap_players (swap_players (apply_moves init_game [(5, 0), (7, 1)])) ≠
      apply_moves init_game [(5, 0), (7, 1)] := by
  decide

/-- C10 amended: applying `swap_players` twice restores every field except
`played_card_number`, which is overwritten with the first selected card;
the double application is the identity exactly on states where
`played_card_number` already equals `selected_cards[0]`. -/
theorem c10_double_swap_spec (b : Board) :
    swap_players (swap_players b) =
      { b with played_card_number := b.selected_cards.1 } := by
  cases b
  simp [swap_players, flip_bit_flip_bit]

end Sinomilia
